import Mathlib

/-!
Shallow embedding of the client-side session state controller of the
AI-Co-Scientist frontend (`ResearchSession`, `HypothesisCard`).

The controller state is the collection of React `useState` cells of the
`ResearchSession` component; the event handlers (`handleWebSocketMessage`,
`handleAgentUpdate`, `handleSessionUpdate`, `startResearch`, `stopResearch`,
`resetSession`, the domain-detection effect) become pure functions from
state (plus the decoded inbound payload / network outcome) to state.

JavaScript truthiness is modelled explicitly where the source relies on it:
an absent field is `none`, an empty string and the number `0` are falsy,
objects and arrays (including the empty array) are truthy.  Scores and
iteration numbers are rationals / integers.
-/

set_option maxHeartbeats 1000000

/-- Domain context record returned by `/api/research/detect-domain`. -/
structure DomainContext where
  domain : String
  expert_role : String
  research_focus : String
  hypothesis_type : String
deriving DecidableEq, Repr

/-- `getDefaultDomainContext` from `ResearchSession`. -/
def getDefaultDomainContext : DomainContext :=
  { domain := "general"
    expert_role := "scientific researcher"
    research_focus := "scientific research"
    hypothesis_type := "research hypothesis" }

/--
The `data.review` payload of a reflection `agent_update`: in the source it is
either a plain string or an object with optional `review` / `score` fields.
The stored `h.review` field has the same shape (the code may store either the
inner string or the whole object).
-/
inductive ReviewData where
  | rstr (v : String)
  | robj (review : Option String) (score : Option ℚ)
deriving DecidableEq, Repr

/-- JS truthiness of a `review` value: `""` is falsy, objects are truthy. -/
def truthyReview : Option ReviewData → Bool
  | none => false
  | some (.rstr v) => v ≠ ""
  | some (.robj _ _) => true

/-- JS truthiness of a numeric `score` value: absent and `0` are falsy. -/
def truthyScore : Option ℚ → Bool
  | none => false
  | some q => q ≠ 0

/-- A hypothesis record as stored in the `hypotheses` state cell. -/
structure Hyp where
  id : String
  iteration : Int
  content : String
  score : Option ℚ := none
  review : Option ReviewData := none
  rank : Option Int := none
  isProcessing : Bool := false
deriving DecidableEq, Repr

/--
`data.review.review || data.review` from the reflection branch of
`handleAgentUpdate`: the inner `review` string when present and truthy,
otherwise the whole `data.review` value.
-/
def jsOrReview : ReviewData → ReviewData
  | .rstr v => .rstr v
  | .robj r sc =>
    match r with
    | some rv => if rv = "" then .robj r sc else .rstr rv
    | none => .robj r sc

/--
`data.review.score || h.score` from the reflection branch of
`handleAgentUpdate`: the payload score when present and truthy (nonzero),
otherwise the previously stored score.  A plain-string review has no
`score` property, so the old score is kept.
-/
def jsOrScore (rd : ReviewData) (old : Option ℚ) : Option ℚ :=
  match rd with
  | .rstr _ => old
  | .robj _ sc =>
    match sc with
    | some q => if q = 0 then old else some q
    | none => old

/-- The untyped `data` field of a channel message; absent fields are `none`. -/
structure MsgData where
  hypothesis : Option Hyp := none
  review : Option ReviewData := none
  ranked_hypotheses : Option (List Hyp) := none
  iteration : Option Int := none
  error : Option String := none
deriving DecidableEq, Repr

/-- A decoded channel message; absent fields are `none`. -/
structure Msg where
  type : String
  agent : Option String := none
  status : Option String := none
  event_type : Option String := none
  data : MsgData := {}
deriving DecidableEq, Repr

/-- The `useState` cells of `ResearchSession`, gathered into one record. -/
structure SessionState where
  sessionId : Option String
  researchGoal : String
  hypotheses : List Hyp
  isStarted : Bool
  error : Option String
  sessionStatus : String
  domainContext : Option DomainContext
  domainDetectionLoading : Bool
  maxIterations : Int
  hypothesesPerIteration : Int
  wsConnected : Bool
  currentAgent : String
  iteration : Int
  progress : List (String × String)
  isRunning : Bool
deriving DecidableEq, Repr

/-- The all-pending progress object `{generation, reflection, ranking}`. -/
def initProgress : List (String × String) :=
  [("generation", "pending"), ("reflection", "pending"), ("ranking", "pending")]

/-- The initial values of the `useState` cells of `ResearchSession`. -/
def initialState : SessionState :=
  { sessionId := none
    researchGoal := ""
    hypotheses := []
    isStarted := false
    error := none
    sessionStatus := "idle"
    domainContext := none
    domainDetectionLoading := false
    maxIterations := 3
    hypothesesPerIteration := 1
    wsConnected := false
    currentAgent := ""
    iteration := 0
    progress := initProgress
    isRunning := false }

/--
The JS object-spread update `{...prev, [k]: v}`: an existing key keeps its
position and gets the new value; a new key is appended at the end.
-/
def objSet : List (String × String) → String → String → List (String × String)
  | [], k, v => [(k, v)]
  | (k', v') :: rest, k, v =>
    if k' = k then (k, v) :: rest else (k', v') :: objSet rest k v

/--
The generation branch of `handleAgentUpdate`: if `data.hypothesis` is present
and no stored hypothesis shares its id, append it with `isProcessing := true`.
-/
def genStep (cur : List Hyp) (d : MsgData) : List Hyp :=
  match d.hypothesis with
  | some hp =>
    if (cur.find? (fun h => h.id == hp.id)).isSome then cur
    else cur ++ [{ hp with isProcessing := true }]
  | none => cur

/--
The reflection branch of `handleAgentUpdate`: for each stored hypothesis of
the current iteration that is still processing, merge in the review payload.
-/
def reflStep (curIter : Int) (cur : List Hyp) (d : MsgData) : List Hyp :=
  match d.review with
  | some rd =>
    if truthyReview (some rd) then
      cur.map (fun h =>
        if h.iteration = curIter ∧ h.isProcessing then
          { h with review := some (jsOrReview rd)
                   score := jsOrScore rd h.score
                   isProcessing := false }
        else h)
    else cur
  | none => cur

/--
The ranking branch of `handleAgentUpdate`: replace the whole collection with
`data.ranked_hypotheses`, each forced to `isProcessing := false`.
-/
def rankStep (cur : List Hyp) (d : MsgData) : List Hyp :=
  match d.ranked_hypotheses with
  | some l => l.map (fun h => { h with isProcessing := false })
  | none => cur

/-- `researchGoal.trim()`: strip leading and trailing whitespace. -/
def jsTrim (s : String) : String :=
  ⟨((s.data.dropWhile Char.isWhitespace).reverse.dropWhile Char.isWhitespace).reverse⟩

/-- `agent.toLowerCase()`: ASCII lower-casing, mapped over the characters. -/
def jsToLower (s : String) : String := ⟨s.data.map Char.toLower⟩

/--
`handleAgentUpdate` from `ResearchSession`.  Every state *write* goes
through a setter (functional updaters read fresh state), but the reflection
branch *reads* the `iteration` variable directly from the closure of the
render that created the handler; `capturedIteration` is that closed-over
value.  The instance actually installed on the channel is the first-render
closure (see `processRaw`), whose captured value is `0`.
-/
def handleAgentUpdate (capturedIteration : Int) (s : SessionState) (m : Msg) :
    SessionState :=
  match m.agent, m.status with
  | some a, some st =>
    if a = "" then s
    else if st = "" then s
    else
      let s1 := { s with currentAgent := a
                         progress := objSet s.progress (jsToLower a) st
                         isRunning := if st = "running" then true else s.isRunning }
      if st = "completed" then
        let h1 := if a = "generation" then genStep s1.hypotheses m.data else s1.hypotheses
        let h2 := if a = "reflection" then reflStep capturedIteration h1 m.data else h1
        let h3 := if a = "ranking" then rankStep h2 m.data else h2
        { s1 with hypotheses := h3 }
      else s1
  | _, _ => s

/-- `handleSessionUpdate` from `ResearchSession`. -/
def handleSessionUpdate (s : SessionState) (m : Msg) : SessionState :=
  if m.event_type = some "research_started" then
    { s with sessionStatus := "running", isRunning := true }
  else if m.event_type = some "iteration_start" then
    match m.data.iteration with
    | some i => if i = 0 then s else { s with iteration := i, progress := initProgress }
    | none => s
  else if m.event_type = some "research_completed" then
    { s with sessionStatus := "completed"
             isStarted := false
             isRunning := false
             progress := [("generation", "completed"), ("reflection", "completed"),
                          ("ranking", "completed")] }
  else if m.event_type = some "research_error" then
    { s with sessionStatus := "error"
             error := some (match m.data.error with
                            | some e => if e = "" then "Research session failed" else e
                            | none => "Research session failed")
             isStarted := false
             isRunning := false }
  else s

/-- `handleWebSocketMessage` from `ResearchSession`: route by `type`,
threading the closed-over `iteration` value to the agent-update handler. -/
def handleWebSocketMessage (capturedIteration : Int) (s : SessionState)
    (m : Msg) : SessionState :=
  if m.type = "agent_update" then handleAgentUpdate capturedIteration s m
  else if m.type = "session_update" then handleSessionUpdate s m
  else s

/--
The `websocket.onmessage` handler: a payload that fails to decode
(`JSON.parse` throws, modelled as `none`) is logged and dropped.  The
connection effect has an empty dependency list, so `onmessage` (and the
reconnect chain) permanently holds the first-render closure; the
`iteration` it closes over is the initial `useState(0)` value, i.e. `0`,
for the whole session — not the current iteration.
-/
def processRaw (s : SessionState) (m : Option Msg) : SessionState :=
  match m with
  | none => s
  | some msg => handleWebSocketMessage 0 s msg

/-- Outcome of the `detect-domain` fetch inside `detectDomain`. -/
inductive FetchResult where
  | ok (ctx : DomainContext)
  | httpError
  | networkError
deriving DecidableEq, Repr

/--
`detectDomain` from `ResearchSession`, after the request has been issued:
on `response.ok` the decoded context is stored; on a thrown error the default
context is stored; on a non-ok response nothing is stored.  The `finally`
block clears the loading flag in every case.
-/
def detectDomain (s : SessionState) (r : FetchResult) : SessionState :=
  match r with
  | .ok ctx => { s with domainContext := some ctx, domainDetectionLoading := false }
  | .httpError => { s with domainDetectionLoading := false }
  | .networkError => { s with domainContext := some getDefaultDomainContext
                              domainDetectionLoading := false }

/-- Outcome of the `POST /api/research/start` request inside `startResearch`.
`fail` covers both a network error and a non-2xx response (the code throws
`HTTP error! status: ...` on non-ok and both land in the same `catch`). -/
inductive StartResult where
  | ok
  | fail (msg : String)
deriving DecidableEq, Repr

/-- `startResearch` from `ResearchSession`, with the fetch outcome made
explicit. `newId` is the generated time-derived session id. -/
def startResearch (s : SessionState) (newId : String) (r : StartResult) : SessionState :=
  if jsTrim s.researchGoal = "" then
    { s with error := some "Please enter a research goal" }
  else if s.wsConnected = false then
    { s with error := some "WebSocket not connected. Please wait and try again." }
  else
    let s1 := { s with error := none
                       isStarted := true
                       sessionStatus := "running"
                       hypotheses := []
                       sessionId := some newId }
    match r with
    | .ok => s1
    | .fail msg => { s1 with error := some msg
                             isStarted := false
                             sessionStatus := "error" }

/-- `stopResearch` from `ResearchSession`. -/
def stopResearch (s : SessionState) : SessionState :=
  { s with isStarted := false
           sessionStatus := "idle"
           isRunning := false
           progress := initProgress
           currentAgent := ""
           iteration := 0 }

/-- `resetSession` from `ResearchSession`. -/
def resetSession (s : SessionState) : SessionState :=
  { s with sessionId := none
           researchGoal := ""
           hypotheses := []
           isStarted := false
           error := none
           sessionStatus := "idle"
           isRunning := false
           progress := initProgress
           currentAgent := ""
           iteration := 0
           domainContext := none
           maxIterations := 3
           hypothesesPerIteration := 1 }

/-- The derived "ready" view:
`hypotheses.filter(h => !h.isProcessing && h.review && h.score)`. -/
def completedHypotheses (l : List Hyp) : List Hyp :=
  l.filter (fun h => !h.isProcessing && truthyReview h.review && truthyScore h.score)

/-- The sort key `(h.score || 0)` used by the display comparator. -/
def scoreK (h : Hyp) : ℚ :=
  match h.score with
  | some q => q
  | none => 0

/-- One insertion step of the stable descending sort: the element being
inserted precedes the first element whose key is not larger. -/
def insertByScore (x : Hyp) : List Hyp → List Hyp
  | [] => [x]
  | y :: ys => if scoreK y ≤ scoreK x then x :: y :: ys else y :: insertByScore x ys

/-- The display sort `completedHypotheses.sort((a, b) => (b.score || 0) - (a.score || 0))`:
a stable sort, descending by score (ES2019 `Array.prototype.sort` is stable). -/
def sortByScoreDesc : List Hyp → List Hyp
  | [] => []
  | x :: xs => insertByScore x (sortByScoreDesc xs)

/-- `getScoreColor` from `HypothesisCard`. -/
def getScoreColor (score : ℚ) : String :=
  if score ≥ 8/10 then "#059669"
  else if score ≥ 6/10 then "#d97706"
  else if score ≥ 4/10 then "#dc2626"
  else "#6b7280"

/-- `getScoreLabel` from `HypothesisCard`. -/
def getScoreLabel (score : ℚ) : String :=
  if score ≥ 8/10 then "High Quality"
  else if score ≥ 6/10 then "Good Quality"
  else if score ≥ 4/10 then "Moderate Quality"
  else "Needs Review"

/-!
External stimuli of the controller, for reachability statements: channel
payloads (with `none` for a decode failure), domain-inference completions,
start-request completions, the stop / reset commands, and goal-text edits.
-/

/-- One external event applied to the controller. -/
inductive Ev where
  | chan (m : Option Msg)
  | detect (r : FetchResult)
  | start (newId : String) (r : StartResult)
  | stop
  | reset
  | goal (g : String)
deriving DecidableEq, Repr

/-- Apply one event to the controller state. -/
def step (s : SessionState) (e : Ev) : SessionState :=
  match e with
  | .chan m => processRaw s m
  | .detect r => detectDomain s r
  | .start newId r => startResearch s newId r
  | .stop => stopResearch s
  | .reset => resetSession s
  | .goal g => { s with researchGoal := g }

/-- Run a trace of events from a state. -/
def runTrace (s : SessionState) (tr : List Ev) : SessionState :=
  tr.foldl step s

/-- The progress map is exactly the three fixed keys, each bound to one of
the four documented statuses. -/
def progressOK (p : List (String × String)) : Bool :=
  p.map Prod.fst == ["generation", "reflection", "ranking"] &&
  p.all (fun kv => kv.2 == "pending" || kv.2 == "running" ||
                   kv.2 == "completed" || kv.2 == "error")

/-- An event conforms to the documented channel interface: any `agent_update`
that reaches the handler body carries one of the three stage names (up to
case) and one of the four statuses. Non-channel events are unconstrained. -/
def wfEv : Ev → Bool
  | .chan (some m) =>
    if m.type = "agent_update" then
      match m.agent, m.status with
      | some a, some st =>
        a == "" || st == "" ||
        ((jsToLower a == "generation" || jsToLower a == "reflection" ||
          jsToLower a == "ranking") &&
         (st == "pending" || st == "running" || st == "completed" || st == "error"))
      | _, _ => true
    else true
  | _ => true

/-- A `session_update` message announcing `iteration_start{iteration := i}`. -/
def iterationStartMsg (i : Int) : Msg :=
  { type := "session_update", event_type := some "iteration_start"
    data := { iteration := some i } }

/-- An `agent_update` message announcing reflection completed with review
payload `rd`. -/
def reflMsg (rd : ReviewData) : Msg :=
  { type := "agent_update", agent := some "reflection", status := some "completed"
    data := { review := some rd } }

/-- An `agent_update` message announcing ranking completed with the given
ranked collection. -/
def rankingMsg (hs : List Hyp) : Msg :=
  { type := "agent_update", agent := some "ranking", status := some "completed"
    data := { ranked_hypotheses := some hs } }

/-- An `agent_update` message announcing generation completed with a fresh
hypothesis payload. -/
def genMsg (hp : Hyp) : Msg :=
  { type := "agent_update", agent := some "generation", status := some "completed"
    data := { hypothesis := some hp } }

/-! Concrete fixtures used by the theorems below. -/

/-- A fresh generation payload for hypothesis `h1` of iteration 1. -/
def h1payload : Hyp :=
  { id := "h1", iteration := 1, content := "c1" }

/-- The reflection payload `{review: "ok", score: 0.9}`. -/
def okReview : ReviewData := .robj (some "ok") (some (9/10))

/-- The documented scenario: iteration 1 starts, generation completes for
`h1` (iteration 1), then reflection completes with `{review: "ok",
score: 0.9}`, all delivered over the channel. -/
def scenarioTrace : List Ev :=
  [.chan (some (iterationStartMsg 1)), .chan (some (genMsg h1payload)),
   .chan (some (reflMsg okReview))]

/-- A stored hypothesis whose `iteration` field is `0` — the only kind the
channel-installed reflection merge can ever match — still processing. -/
def hStale : Hyp :=
  { id := "h0", iteration := 0, content := "c0", score := some (1/2), isProcessing := true }

/-- A controller state whose session iteration is 1 while holding one
processing hypothesis tagged with iteration 0. -/
def staleState : SessionState :=
  { initialState with iteration := 1, hypotheses := [hStale] }

/-- A previously inferred (non-default) domain context. -/
def priorCtx : DomainContext :=
  { domain := "physics", expert_role := "physicist"
    research_focus := "physics research", hypothesis_type := "physics hypothesis" }

/-- A state about to issue a start request while the running flag is set
(an agent update with status running can arrive before the user starts). -/
def startFailState : SessionState :=
  { initialState with researchGoal := "How do cells repair DNA damage?"
                      wsConnected := true
                      isRunning := true }

/-- An `agent_update` whose agent is not one of the three stage names. -/
def rogueMsg : Msg :=
  { type := "agent_update", agent := some "evolution", status := some "running" }

/-! Helper lemmas about the stable descending sort. -/

theorem insertByScore_perm (x : Hyp) (l : List Hyp) :
    (insertByScore x l).Perm (x :: l) := by
  induction l with
  | nil => exact List.Perm.refl _
  | cons y ys ih =>
    unfold insertByScore
    split
    · exact List.Perm.refl _
    · exact (ih.cons y).trans (List.Perm.swap x y ys)

theorem sortByScoreDesc_perm (l : List Hyp) : (sortByScoreDesc l).Perm l := by
  induction l with
  | nil => exact List.Perm.refl _
  | cons x xs ih =>
    exact (insertByScore_perm x (sortByScoreDesc xs)).trans (ih.cons x)

theorem mem_insertByScore {z x : Hyp} {l : List Hyp} :
    z ∈ insertByScore x l ↔ z = x ∨ z ∈ l := by
  rw [(insertByScore_perm x l).mem_iff]
  simp

theorem insertByScore_pairwise (x : Hyp) (l : List Hyp)
    (h : l.Pairwise (fun a b => scoreK b ≤ scoreK a)) :
    (insertByScore x l).Pairwise (fun a b => scoreK b ≤ scoreK a) := by
  induction l with
  | nil => simp [insertByScore]
  | cons y ys ih =>
    obtain ⟨hy, hys⟩ := List.pairwise_cons.mp h
    unfold insertByScore
    split
    case isTrue hxy =>
      refine List.Pairwise.cons ?_ (List.Pairwise.cons hy hys)
      intro z hz
      rcases List.mem_cons.mp hz with rfl | hz
      · exact hxy
      · exact (hy z hz).trans hxy
    case isFalse hxy =>
      refine List.Pairwise.cons ?_ (ih hys)
      intro z hz
      rcases mem_insertByScore.mp hz with rfl | hz
      · exact le_of_lt (not_le.mp hxy)
      · exact hy z hz

theorem sortByScoreDesc_pairwise (l : List Hyp) :
    (sortByScoreDesc l).Pairwise (fun a b => scoreK b ≤ scoreK a) := by
  induction l with
  | nil => simp [sortByScoreDesc]
  | cons x xs ih => exact insertByScore_pairwise x _ ih

theorem filter_insertByScore_eq (x : Hyp) (l : List Hyp) (v : ℚ) (hx : scoreK x = v) :
    (insertByScore x l).filter (fun h => scoreK h == v)
      = x :: l.filter (fun h => scoreK h == v) := by
  induction l with
  | nil => simp [insertByScore, List.filter_cons, hx]
  | cons y ys ih =>
    unfold insertByScore
    split
    case isTrue hxy => simp [List.filter_cons, hx]
    case isFalse hxy =>
      have hy : ¬ scoreK y = v := by
        intro hv
        exact hxy (by rw [hv, ← hx])
      simp [List.filter_cons, hy, ih]

theorem filter_insertByScore_ne (x : Hyp) (l : List Hyp) (v : ℚ) (hx : ¬ scoreK x = v) :
    (insertByScore x l).filter (fun h => scoreK h == v)
      = l.filter (fun h => scoreK h == v) := by
  induction l with
  | nil => simp [insertByScore, List.filter_cons, hx]
  | cons y ys ih =>
    unfold insertByScore
    split
    case isTrue hxy => simp [List.filter_cons, hx]
    case isFalse hxy => simp [List.filter_cons, ih]

theorem filter_sortByScoreDesc (l : List Hyp) (v : ℚ) :
    (sortByScoreDesc l).filter (fun h => scoreK h == v)
      = l.filter (fun h => scoreK h == v) := by
  induction l with
  | nil => rfl
  | cons x xs ih =>
    by_cases hx : scoreK x = v
    · rw [sortByScoreDesc, filter_insertByScore_eq x _ v hx, ih]
      simp [List.filter_cons, hx]
    · rw [sortByScoreDesc, filter_insertByScore_ne x _ v hx, ih]
      simp [List.filter_cons, hx]

/-! Helper lemmas about the progress map invariant. -/

theorem progressOK_shape (p : List (String × String)) (hp : progressOK p = true) :
    ∃ v1 v2 v3, p = [("generation", v1), ("reflection", v2), ("ranking", v3)] ∧
      (v1 = "pending" ∨ v1 = "running" ∨ v1 = "completed" ∨ v1 = "error") ∧
      (v2 = "pending" ∨ v2 = "running" ∨ v2 = "completed" ∨ v2 = "error") ∧
      (v3 = "pending" ∨ v3 = "running" ∨ v3 = "completed" ∨ v3 = "error") := by
  rcases p with _ | ⟨⟨k1, v1⟩, _ | ⟨⟨k2, v2⟩, _ | ⟨⟨k3, v3⟩, _ | ⟨d, rest⟩⟩⟩⟩ <;>
    simp [progressOK] at hp
  obtain ⟨⟨hk1, hk2, hk3⟩, hv1, hv2, hv3⟩ := hp
  exact ⟨v1, v2, v3, by rw [hk1, hk2, hk3], by tauto, by tauto, by tauto⟩

theorem progressOK_objSet (p : List (String × String)) (k v : String)
    (hp : progressOK p = true)
    (hk : k = "generation" ∨ k = "reflection" ∨ k = "ranking")
    (hv : v = "pending" ∨ v = "running" ∨ v = "completed" ∨ v = "error") :
    progressOK (objSet p k v) = true := by
  obtain ⟨v1, v2, v3, rfl, hv1, hv2, hv3⟩ := progressOK_shape p hp
  rcases hk with rfl | rfl | rfl <;>
    simp [objSet, progressOK] <;>
    exact ⟨by tauto, by tauto, by tauto⟩

theorem handleAgentUpdate_progressOK (it : Int) (s : SessionState) (m : Msg)
    (hp : progressOK s.progress = true)
    (hwf : wfEv (Ev.chan (some m)) = true) (hty : m.type = "agent_update") :
    progressOK (handleAgentUpdate it s m).progress = true := by
  rcases hma : m.agent with _ | a
  · simpa [handleAgentUpdate, hma] using hp
  rcases hms : m.status with _ | st
  · simpa [handleAgentUpdate, hma, hms] using hp
  by_cases ha : a = ""
  · simpa [handleAgentUpdate, hma, hms, ha] using hp
  by_cases hst : st = ""
  · simpa [handleAgentUpdate, hma, hms, ha, hst] using hp
  have hwf2 : (jsToLower a = "generation" ∨ jsToLower a = "reflection" ∨
      jsToLower a = "ranking") ∧
      (st = "pending" ∨ st = "running" ∨ st = "completed" ∨ st = "error") := by
    simp [wfEv, hty, hma, hms] at hwf
    tauto
  have hOK := progressOK_objSet s.progress (jsToLower a) st hp hwf2.1 hwf2.2
  by_cases hc : st = "completed" <;>
    simpa [handleAgentUpdate, hma, hms, ha, hst, hc] using hOK

theorem handleSessionUpdate_progressOK (s : SessionState) (m : Msg)
    (hp : progressOK s.progress = true) :
    progressOK (handleSessionUpdate s m).progress = true := by
  unfold handleSessionUpdate
  split_ifs with h1 h2 h3 h4
  · exact hp
  · rcases m.data.iteration with _ | i
    · exact hp
    · dsimp only
      split_ifs with hz
      · exact hp
      · exact (by decide : progressOK initProgress = true)
  · exact (by decide : progressOK [("generation", "completed"), ("reflection", "completed"),
      ("ranking", "completed")] = true)
  · exact hp
  · exact hp

theorem step_progressOK (s : SessionState) (e : Ev)
    (hp : progressOK s.progress = true) (he : wfEv e = true) :
    progressOK (step s e).progress = true := by
  cases e with
  | chan m =>
    rcases m with _ | msg
    · exact hp
    · show progressOK (handleWebSocketMessage 0 s msg).progress = true
      unfold handleWebSocketMessage
      split_ifs with h1 h2
      · exact handleAgentUpdate_progressOK 0 s msg hp he h1
      · exact handleSessionUpdate_progressOK s msg hp
      · exact hp
  | detect r => cases r <;> exact hp
  | start newId r =>
    show progressOK (startResearch s newId r).progress = true
    unfold startResearch
    split_ifs with h1 h2
    · exact hp
    · exact hp
    · cases r
      · exact hp
      · exact hp
  | stop => exact (by decide : progressOK initProgress = true)
  | reset => exact (by decide : progressOK initProgress = true)
  | goal g => exact hp

theorem runTrace_progressOK (tr : List Ev) : ∀ s : SessionState,
    progressOK s.progress = true → tr.all wfEv = true →
    progressOK (runTrace s tr).progress = true := by
  induction tr with
  | nil => intro s hp _; exact hp
  | cons e tr ih =>
    intro s hp hall
    rw [List.all_cons, Bool.and_eq_true] at hall
    exact ih (step s e) (step_progressOK s e hp hall.1) hall.2

/-!  Claim theorems. -/

/-- C1 counterexample: in the documented scenario (iteration_start{1},
generation-completed for `h1` of iteration 1, reflection-completed with
`{review: "ok", score: 0.9}`) the ready subset is empty, not `[h1]` — the
channel handler is the first-render closure, so the reflection merge
compares `h.iteration` against the captured iteration `0` and never against
the session's current iteration `1`; `h1` stays processing, untouched. -/
theorem reflection_stale_iteration_cex :
    completedHypotheses (runTrace initialState scenarioTrace).hypotheses = [] ∧
    (runTrace initialState scenarioTrace).hypotheses
      = [{ h1payload with isProcessing := true }] ∧
    (runTrace initialState scenarioTrace).iteration = 1 := by
  refine ⟨?_, ?_, ?_⟩ <;>
    simp [runTrace, step, processRaw, handleWebSocketMessage, handleSessionUpdate,
          handleAgentUpdate, scenarioTrace, iterationStartMsg, genMsg, reflMsg,
          genStep, reflStep, rankStep, initialState, h1payload, okReview,
          truthyReview, completedHypotheses, truthyScore, initProgress, objSet,
          jsToLower]

/-- C1 (amended): on a reflection-completed update carrying a truthy review,
the store updates every stored hypothesis whose `iteration` equals the
iteration value captured by the channel handler's closure — the first-render
value `0`, because the connection effect has an empty dependency list — and
whose `isProcessing` is true, setting `review := data.review.review` if
present and truthy else `data.review`, `score := data.review.score` if
present and truthy (nonzero) else the old score, and `isProcessing := false`;
all other hypotheses are untouched.  Consequently, in the documented
scenario (generation of `h1` in iteration 1, then reflection
`{review: "ok", score: 0.9}` with session iteration 1) no hypothesis
matches: `h1` stays processing and the ready subset is empty. -/
theorem reflection_merge_spec (s : SessionState) (rd : ReviewData)
    (hrd : truthyReview (some rd) = true) :
    (processRaw s (some (reflMsg rd))).hypotheses
      = s.hypotheses.map (fun h =>
          if h.iteration = 0 ∧ h.isProcessing then
            { h with review := some (jsOrReview rd)
                     score := jsOrScore rd h.score
                     isProcessing := false }
          else h) ∧
    completedHypotheses (runTrace initialState scenarioTrace).hypotheses = [] ∧
    (runTrace initialState scenarioTrace).hypotheses
      = [{ h1payload with isProcessing := true }] := by
  refine ⟨?_, ?_, ?_⟩
  · simp [processRaw, handleWebSocketMessage, reflMsg, handleAgentUpdate,
          genStep, reflStep, rankStep, hrd]
  · simp [runTrace, step, processRaw, handleWebSocketMessage, handleSessionUpdate,
          handleAgentUpdate, scenarioTrace, iterationStartMsg, genMsg, reflMsg,
          genStep, reflStep, rankStep, initialState, h1payload, okReview,
          truthyReview, completedHypotheses, truthyScore, initProgress, objSet,
          jsToLower]
  · simp [runTrace, step, processRaw, handleWebSocketMessage, handleSessionUpdate,
          handleAgentUpdate, scenarioTrace, iterationStartMsg, genMsg, reflMsg,
          genStep, reflStep, rankStep, initialState, h1payload, okReview,
          truthyReview, initProgress, objSet, jsToLower]

/-- C1 witness: the merge does fire — for a hypothesis tagged iteration `0` —
even while the session iteration is 1, with the truthy-or semantics on the
review and score fields. -/
theorem reflection_merge_spec_witness :
    truthyReview (some okReview) = true ∧
    (processRaw staleState (some (reflMsg okReview))).hypotheses
      = [{ id := "h0", iteration := 0, content := "c0", score := some (9/10),
           review := some (.rstr "ok"), rank := none, isProcessing := false }] := by
  have h := reflection_merge_spec staleState okReview (by decide)
  refine ⟨by decide, ?_⟩
  rw [h.1]
  have h910 : ¬ ((9:ℚ)/10 = 0) := by norm_num
  simp [staleState, initialState, hStale, okReview, jsOrReview, jsOrScore, h910]

/-- C2 counterexample: a non-success HTTP response does not replace the
domain context with the default — the code only installs the default when
the fetch throws; a non-ok response leaves the previous context in place. -/
theorem detectDomain_httpError_cex :
    (detectDomain { initialState with domainContext := some priorCtx }
        FetchResult.httpError).domainContext = some priorCtx ∧
    some priorCtx ≠ some getDefaultDomainContext := by
  exact ⟨rfl, by decide⟩

/-- C2 (amended): a network error replaces the domain context with the fixed
default `{general, scientific researcher, scientific research, research
hypothesis}`; a non-success HTTP response leaves the context unchanged; in
neither case is the session error message touched. -/
theorem detectDomain_failure_behavior (s : SessionState) :
    (detectDomain s FetchResult.networkError).domainContext
      = some getDefaultDomainContext ∧
    (detectDomain s FetchResult.networkError).error = s.error ∧
    (detectDomain s FetchResult.httpError).domainContext = s.domainContext ∧
    (detectDomain s FetchResult.httpError).error = s.error :=
  ⟨rfl, rfl, rfl, rfl⟩

/-- C3: an inbound payload whose `type` is neither `agent_update` nor
`session_update`, or that fails to decode, is dropped with no state change;
the embedded dispatcher is a total function, so no exception escapes it. -/
theorem dispatcher_drops_unknown (it : Int) (s : SessionState) (m : Msg)
    (h1 : m.type ≠ "agent_update") (h2 : m.type ≠ "session_update") :
    handleWebSocketMessage it s m = s ∧ processRaw s (some m) = s ∧
    processRaw s none = s := by
  refine ⟨?_, ?_, rfl⟩ <;> simp [processRaw, handleWebSocketMessage, h1, h2]

/-- C3 witness: a concrete unknown message type is dropped. -/
theorem dispatcher_drops_unknown_witness :
    handleWebSocketMessage 0 initialState { type := "ping" } = initialState :=
  (dispatcher_drops_unknown 0 initialState { type := "ping" }
    (by decide) (by decide)).1

/-- C4 counterexample: an `agent_update` carrying an undocumented agent name
adds a fourth key to the progress map, so the three-keys invariant fails for
arbitrary channel input. -/
theorem progress_extra_key_cex :
    ((processRaw initialState (some rogueMsg)).progress.map Prod.fst)
      = ["generation", "reflection", "ranking", "evolution"] ∧
    ((processRaw initialState (some rogueMsg)).progress.map Prod.fst)
      ≠ ["generation", "reflection", "ranking"] := by
  constructor
  · decide
  · decide

/-- C4 (amended): in every state reachable from the initial state by events
whose `agent_update` payloads conform to the documented channel interface
(agent lowercases to generation/reflection/ranking, status is one of the
four documented statuses), the progress map has exactly the three fixed keys,
each bound to one of pending/running/completed/error. -/
theorem progress_three_keys_invariant (tr : List Ev) (h : tr.all wfEv = true) :
    progressOK (runTrace initialState tr).progress = true :=
  runTrace_progressOK tr initialState (by decide) h

/-- C4 witness: the invariant on a concrete conforming trace. -/
theorem progress_three_keys_invariant_witness :
    [Ev.chan (some (genMsg h1payload))].all wfEv = true ∧
    progressOK (runTrace initialState [Ev.chan (some (genMsg h1payload))]).progress
      = true :=
  ⟨by decide, progress_three_keys_invariant [Ev.chan (some (genMsg h1payload))] (by decide)⟩

/-- C5: a ranking-completed update discards the prior collection and replaces
it with `data.ranked_hypotheses`, each entry forced to `isProcessing = false`;
processing the identical message twice therefore yields identical collections
and identical ready subsets. -/
theorem ranking_replace_idempotent (s : SessionState) (hs : List Hyp) :
    (processRaw s (some (rankingMsg hs))).hypotheses
      = hs.map (fun h => { h with isProcessing := false }) ∧
    (processRaw (processRaw s (some (rankingMsg hs))) (some (rankingMsg hs))).hypotheses
      = (processRaw s (some (rankingMsg hs))).hypotheses ∧
    completedHypotheses
        ((processRaw (processRaw s (some (rankingMsg hs))) (some (rankingMsg hs))).hypotheses)
      = completedHypotheses ((processRaw s (some (rankingMsg hs))).hypotheses) := by
  have key : ∀ t : SessionState, (processRaw t (some (rankingMsg hs))).hypotheses
      = hs.map (fun h => { h with isProcessing := false }) := by
    intro t
    simp [processRaw, handleWebSocketMessage, rankingMsg, handleAgentUpdate,
          genStep, reflStep, rankStep]
  exact ⟨key s, (key _).trans (key s).symm, by rw [key, key]⟩

/-- C6: a `session_update` event `iteration_start{iteration: 2}` sets the
iteration number to 2 and resets all three progress entries to pending,
whatever the prior state. -/
theorem iterationStart_resets_progress (s : SessionState) :
    (processRaw s (some (iterationStartMsg 2))).iteration = 2 ∧
    (processRaw s (some (iterationStartMsg 2))).progress = initProgress := by
  constructor <;> rfl

/-- C7 counterexample: when the start request fails, the session-wide
running flag is not cleared — the catch block only clears the started flag
and sets the status and error — so a state entered with `isRunning = true`
keeps it after the failure. -/
theorem startResearch_fail_keeps_running_cex :
    (startResearch startFailState "session_1700000000000"
        (StartResult.fail "HTTP error! status: 500")).isRunning = true := by
  decide

/-- C7 (amended): if the start request fails (network error or non-2xx
response), the failure message is surfaced as the session error, the status
reverts to error, and the started flag is cleared; the session-wide running
flag is left unchanged (it is not touched by the failure handler). -/
theorem startResearch_fail_behavior (s : SessionState) (newId msg : String)
    (h1 : jsTrim s.researchGoal ≠ "") (h2 : s.wsConnected = true) :
    (startResearch s newId (StartResult.fail msg)).error = some msg ∧
    (startResearch s newId (StartResult.fail msg)).sessionStatus = "error" ∧
    (startResearch s newId (StartResult.fail msg)).isStarted = false ∧
    (startResearch s newId (StartResult.fail msg)).sessionId = some newId ∧
    (startResearch s newId (StartResult.fail msg)).hypotheses = [] ∧
    (startResearch s newId (StartResult.fail msg)).isRunning = s.isRunning := by
  simp [startResearch, h1, h2]

/-- C7 witness: the failure behaviour at a concrete state and message. -/
theorem startResearch_fail_behavior_witness :
    jsTrim startFailState.researchGoal ≠ "" ∧ startFailState.wsConnected = true ∧
    (startResearch startFailState "session_1" (StartResult.fail "boom")).error
      = some "boom" :=
  ⟨by decide, rfl,
    (startResearch_fail_behavior startFailState "session_1" "boom" (by decide) rfl).1⟩

/-- C8: the displayed view sorts the ready subset by score descending and is
stable — the sorted output is a permutation of the ready subset, is pairwise
descending on the score key, and for every score value the equal-score
entries appear in exactly their pre-sort relative order (no secondary
tie-break key). -/
theorem completed_sort_stable (l : List Hyp) (v : ℚ) :
    ((sortByScoreDesc (completedHypotheses l)).Pairwise
      (fun a b => scoreK b ≤ scoreK a)) ∧
    (sortByScoreDesc (completedHypotheses l)).Perm (completedHypotheses l) ∧
    (sortByScoreDesc (completedHypotheses l)).filter (fun h => scoreK h == v)
      = (completedHypotheses l).filter (fun h => scoreK h == v) :=
  ⟨sortByScoreDesc_pairwise _, sortByScoreDesc_perm _, filter_sortByScoreDesc _ v⟩

/-- C9: quality tiers are inclusive on each lower bound: scores in [0.8, ∞)
are High Quality (green), [0.6, 0.8) Good Quality (amber), [0.4, 0.6)
Moderate Quality (red), below 0.4 Needs Review (gray); in particular 0.80 is
top-tier and 0.799999 is one tier down. -/
theorem getScoreLabel_tiers (q : ℚ) :
    (8/10 ≤ q → getScoreLabel q = "High Quality" ∧ getScoreColor q = "#059669") ∧
    (6/10 ≤ q ∧ q < 8/10 →
      getScoreLabel q = "Good Quality" ∧ getScoreColor q = "#d97706") ∧
    (4/10 ≤ q ∧ q < 6/10 →
      getScoreLabel q = "Moderate Quality" ∧ getScoreColor q = "#dc2626") ∧
    (q < 4/10 → getScoreLabel q = "Needs Review" ∧ getScoreColor q = "#6b7280") := by
  refine ⟨fun h => ?_, fun h => ?_, fun h => ?_, fun h => ?_⟩
  · simp [getScoreLabel, getScoreColor, ge_iff_le, h]
  · have h8 : ¬ (8/10 : ℚ) ≤ q := not_le.mpr h.2
    simp [getScoreLabel, getScoreColor, ge_iff_le, h8, h.1]
  · have h8 : ¬ (8/10 : ℚ) ≤ q := not_le.mpr (h.2.trans (by norm_num))
    have h6 : ¬ (6/10 : ℚ) ≤ q := not_le.mpr h.2
    simp [getScoreLabel, getScoreColor, ge_iff_le, h8, h6, h.1]
  · have h8 : ¬ (8/10 : ℚ) ≤ q := not_le.mpr (h.trans (by norm_num))
    have h6 : ¬ (6/10 : ℚ) ≤ q := not_le.mpr (h.trans (by norm_num))
    have h4 : ¬ (4/10 : ℚ) ≤ q := not_le.mpr h
    simp [getScoreLabel, getScoreColor, ge_iff_le, h8, h6, h4]

/-- C9 witness: the boundary scores 0.80 and 0.799999. -/
theorem getScoreLabel_tiers_witness :
    ((8:ℚ)/10 ≤ 8/10 ∧ getScoreLabel (8/10) = "High Quality") ∧
    ((6:ℚ)/10 ≤ 799999/1000000 ∧ (799999/1000000 : ℚ) < 8/10 ∧
      getScoreLabel (799999/1000000) = "Good Quality") := by
  refine ⟨⟨le_refl _, ?_⟩, ⟨by norm_num, by norm_num, ?_⟩⟩
  · exact ((getScoreLabel_tiers (8/10)).1 (le_refl _)).1
  · exact ((getScoreLabel_tiers (799999/1000000)).2.1 ⟨by norm_num, by norm_num⟩).1

/-- C10: the stop command sets the started flag, status, running flag,
progress map, current agent and iteration to their stop values and changes
nothing else: session id, research goal, hypotheses, error message, domain
context and the two configuration values are untouched. -/
theorem stopResearch_frame (s : SessionState) :
    stopResearch s = { s with isStarted := false
                              sessionStatus := "idle"
                              isRunning := false
                              progress := initProgress
                              currentAgent := ""
                              iteration := 0 } ∧
    (stopResearch s).sessionId = s.sessionId ∧
    (stopResearch s).researchGoal = s.researchGoal ∧
    (stopResearch s).hypotheses = s.hypotheses ∧
    (stopResearch s).error = s.error ∧
    (stopResearch s).domainContext = s.domainContext ∧
    (stopResearch s).maxIterations = s.maxIterations ∧
    (stopResearch s).hypothesesPerIteration = s.hypothesesPerIteration :=
  ⟨rfl, rfl, rfl, rfl, rfl, rfl, rfl, rfl⟩
